import Mathlib

/-!
Verification of the `synth` device simulator core
(`src/synth/device.py` and `src/synth/devices/battery.py`).

The Python code is shallowly embedded: property maps become association
lists with Python-dict update semantics, simulated times and numeric
property values become rationals, raising code returns `Except`, and the
stochastic draws (`random.normalvariate`, `random.random`) become explicit
parameters.  Telemetry output (`updateCallback` / `logEntry`) is modelled
as an optional `Emission` value, and calls to the external scheduling
engine (`register_event_in`) are recorded as returned delays.
-/

namespace Synth

/-- A Python property value: a string, a number (int/float merged into `ℚ`),
or `None`. -/
inductive Value where
  | str (s : String)
  | num (q : ℚ)
  | vnone
deriving DecidableEq

/-- A Python dict from property names to values, as an association list. -/
abbrev Props := List (String × Value)

/-- Dict lookup: `p[k]` as an `Option`. -/
def plookup : Props → String → Option Value
  | [], _ => none
  | kv :: rest, k => if kv.1 = k then some kv.2 else plookup rest k

/-- Remove every binding of key `k`. -/
def premove (k : String) : Props → Props
  | [] => []
  | kv :: rest => if kv.1 = k then premove k rest else kv :: premove k rest

/-- Dict write `p[k] = v`: the new binding replaces any old one.  (A Python
2.7 dict's iteration order is arbitrary and the simulator only ever reads
it key-sorted via `logEntry`, so the position of a binding is not
observable; only the key-to-value map is modelled.) -/
def pset (p : Props) (k : String) (v : Value) : Props :=
  (k, v) :: premove k p

/-- Python `p.update(news)`: write every binding of `news` into `p`.
(`news` always has pairwise distinct keys here, so iteration order is
irrelevant, as it is for a Python dict.) -/
def updateProps (p news : Props) : Props :=
  news.foldl (fun a kv => pset a kv.1 kv.2) p

/-- `device.py` line 42. -/
def GOOD_RSSI : ℚ := -50

/-- `device.py` line 43. -/
def BAD_RSSI : ℚ := -120

/-- `device.py` line 40: `DEFAULT_BATTERY_LIFE_S = 5*60`, i.e. 300. -/
def DEFAULT_BATTERY_LIFE_S : ℚ := 300

/-- `device.py` line 192: map rssi from `GOOD_RSSI..BAD_RSSI` onto `1..0`. -/
def radioGoodnessLinear (rssi : ℚ) : ℚ :=
  1 - (rssi - GOOD_RSSI) / (BAD_RSSI - GOOD_RSSI)

/-- `device.py` lines 192-193: the radio factor multiplied into the comms
probability: the linear map followed by the skew `1 - (1 - x)^4`. -/
def radioFactor (rssi : ℚ) : ℚ :=
  1 - (1 - radioGoodnessLinear rssi)^4

/-- `devices/battery.py` lines 36-39: draw a battery life (the normal draw
is the explicit argument `draw`), clamp it to `[mu-2*sigma, mu+2*sigma]`,
then floor it at `1.0`. -/
def sample_life (mu sigma draw : ℚ) : ℚ :=
  max (max (min draw (mu + 2 * sigma)) (mu - 2 * sigma)) 1

/-- `device.py` lines 176-181 (`setBatteryLife`): the same draw and clamp,
but with no positive floor. -/
def setBatteryLife_life (mu sigma draw : ℚ) : ℚ :=
  max (min draw (mu + 2 * sigma)) (mu - 2 * sigma)

/-- A Python exception escaping a modelled function. -/
inductive PyError where
  | keyError (k : String)
  | nameError (n : String)
  | typeError
deriving DecidableEq

/-- Python-2 truth of `v > 0` (`device.py` line 230): strings compare
greater than every number in Python 2, `None` smaller. -/
def valGtZero : Value → Bool
  | .num q => 0 < q
  | .str _ => true
  | .vnone => false

/-- Python-2 truth of `v <= 0` (`device.py` line 147). -/
def valLeZero : Value → Bool
  | .num q => q ≤ 0
  | .str _ => false
  | .vnone => true

/-- Python `v - 1` on a property value (`device.py` line 231). -/
def valSub1 : Value → Except PyError Value
  | .num q => .ok (.num (q - 1))
  | _ => .error .typeError

/-- The device state of `device.py`'s `device` class: the identifier, the
property dict and the scalar attributes set in `__init__`. -/
structure DeviceState where
  device_id : String
  properties : Props
  commsReliability : ℚ := 1
  commsUpDownPeriod : ℚ := 86400
  batteryLife : ℚ := DEFAULT_BATTERY_LIFE_S
  batteryAutoreplace : Bool := false
  commsOK : Bool := true
deriving DecidableEq

/-- One telemetry transmission by `doComms` (`device.py` lines 201-207):
whether the update callback was invoked (`sinkNotified = false` models the
"No callback installed" warning path, where only the log line is written),
and the `(time, changed-properties)` row appended to the structured log. -/
structure Emission where
  sinkNotified : Bool
  time : ℚ
  props : Props
deriving DecidableEq

/-- `device.py` lines 201-207: transmit only when `commsOK` holds. -/
def doComms (cbInstalled commsOK : Bool) (time : ℚ) (props : Props) : Option Emission :=
  if commsOK then some ⟨cbInstalled, time, props⟩ else none

/-- `device.py` line 219: the dict literal
`{ propName : value, "$id" : self.device_id, "$ts" : time }`
(a later duplicate key overrides an earlier one, as in Python). -/
def newPropsFor (d : DeviceState) (time : ℚ) (k : String) (v : Value) : Props :=
  pset (pset (pset [] k v) "$id" (.str d.device_id)) "$ts" (.num time)

/-- `device.py` lines 218-221 (`setProperty`): merge the new bindings into
the property dict and hand them to `doComms`. -/
def setProperty (cbInstalled : Bool) (time : ℚ) (d : DeviceState) (k : String) (v : Value) :
    DeviceState × Option Emission :=
  let np := newPropsFor d time k v
  ({ d with properties := updateProps d.properties np },
   doComms cbInstalled d.commsOK time np)

/-- `device.py` lines 223-226 (`setProperties`): force `$id` and `$ts` into
the batch, merge, and hand the batch to `doComms`. -/
def setProperties (cbInstalled : Bool) (time : ℚ) (d : DeviceState) (newProps : Props) :
    DeviceState × Option Emission :=
  let np := pset (pset newProps "$id" (.str d.device_id)) "$ts" (.num time)
  ({ d with properties := updateProps d.properties np },
   doComms cbInstalled d.commsOK time np)

/-- `device.py` lines 209-210 (`getProperty`): a dict lookup that raises
`KeyError` on a missing key. -/
def getProperty (d : DeviceState) (k : String) : Except PyError Value :=
  match plookup d.properties k with
  | some v => .ok v
  | none => .error (.keyError k)

/-- `device.py` lines 47-48 of `devices/battery.py` (`Battery.comms_ok`):
the base-class flag AND `properties.get("battery", 100) > 0`. -/
def battery_comms_ok (superOK : Bool) (p : Props) : Bool :=
  superOK && valGtZero ((plookup p "battery").getD (.num 100))

/-- `device.py` lines 133-137 (`startTicks`): the `(delay, callback)` pairs
registered with the engine: a battery-decay tick only when a `battery`
property exists, an hourly tick, and an immediate product-usage tick. -/
def startTicksSched (d : DeviceState) : List (ℚ × String) :=
  (if (plookup d.properties "battery").isSome
     then [(d.batteryLife / 100, "tickBatteryDecay")] else [])
  ++ [(3600, "tickHourly"), (0, "tickProductUsage")]

/-- The observable result of one successful `device.externalEvent` call:
the post state, the telemetry emissions, the `logString` lines and the
engine registrations made. -/
structure EvResult where
  dev : DeviceState
  emissions : List Emission
  logs : List String
  sched : List (ℚ × String)
deriving DecidableEq

/-- `device.py` lines 139-157 (`device.externalEvent`):
line 140 reads `self.properties["$id"]` (a `KeyError` when absent);
`replaceBattery` sets `battery` to 100 and restarts the ticks before the
gate; the gate then ignores the command when `battery <= 0` (a `KeyError`
when the device has no `battery` property) or when comms is down;
otherwise `upgradeFirmware` / `factoryReset` write the `firmware`
property.  (The source uses two separate `if`s for the last two commands;
a single event name can match at most one of them, so the `else if` chain
is equivalent.) -/
def externalEventMethod (cbInstalled : Bool) (now : ℚ) (d : DeviceState)
    (eventName : String) (arg : Value) : Except PyError EvResult :=
  match plookup d.properties "$id" with
  | none => .error (.keyError "$id")
  | some _ =>
    let log1 := "Processing external event " ++ eventName
    let (d1, em1, sch1) :=
      if eventName = "replaceBattery" then
        let (d', e) := setProperty cbInstalled now d "battery" (.num 100)
        (d', e.toList, startTicksSched d')
      else (d, [], [])
    match plookup d1.properties "battery" with
    | none => .error (.keyError "battery")
    | some bv =>
      if valLeZero bv then
        .ok ⟨d1, em1, [log1, "...ignored because battery flat"], sch1⟩
      else if d1.commsOK = false then
        .ok ⟨d1, em1, [log1, "...ignored because comms down"], sch1⟩
      else if eventName = "upgradeFirmware" then
        let (d2, e2) := setProperty cbInstalled now d1 "firmware" arg
        .ok ⟨d2, em1 ++ e2.toList, [log1], sch1⟩
      else if eventName = "factoryReset" then
        match plookup d1.properties "factoryFirmware" with
        | none => .error (.keyError "factoryFirmware")
        | some fw =>
          let (d2, e2) := setProperty cbInstalled now d1 "firmware" fw
          .ok ⟨d2, em1 ++ e2.toList, [log1], sch1⟩
      else
        .ok ⟨d1, em1, [log1], sch1⟩

/-- The observable result of one `tickBatteryDecay` callback: the post
state, the telemetry emission if any, and the delay of the re-registered
decay tick if any. -/
structure TickResult where
  dev : DeviceState
  emission : Option Emission
  next : Option ℚ
deriving DecidableEq

/-- `device.py` lines 228-237 (`tickBatteryDecay`), identical in structure
to `devices/battery.py` lines 62-72 (`tick_battery_decay`): while the
battery value is positive, decrement it and re-register the tick
`batteryLife / 100` later; at 0, either auto-replace to 100 and
re-register, or stop without registering anything. -/
def tickBatteryDecay (cbInstalled : Bool) (now : ℚ) (d : DeviceState) :
    Except PyError TickResult :=
  match plookup d.properties "battery" with
  | none => .error (.keyError "battery")
  | some v =>
    if valGtZero v then
      match valSub1 v with
      | .error e => .error e
      | .ok v' =>
        let (d', em) := setProperty cbInstalled now d "battery" v'
        .ok ⟨d', em, some (d.batteryLife / 100)⟩
    else if d.batteryAutoreplace then
      let (d', em) := setProperty cbInstalled now d "battery" (.num 100)
      .ok ⟨d', em, some (d.batteryLife / 100)⟩
    else
      .ok ⟨d, none, none⟩

/-- Run the self-rescheduling battery-decay chain for `n` ticks: the first
tick fires at simulated time `t`, and each subsequent one
`batteryLife / 100` after the previous, exactly as re-registered by
`tickBatteryDecay`.  A tick that raises, or a chain that has stopped,
leaves the state as it is. -/
def decayRun (cbInstalled : Bool) : ℕ → ℚ → DeviceState → DeviceState
  | 0, _, d => d
  | n + 1, t, d =>
    match tickBatteryDecay cbInstalled t d with
    | .ok r => decayRun cbInstalled n (t + d.batteryLife / 100) r.dev
    | .error _ => d

/-- `device.py` lines 57-63 (`getDeviceByProperty`): linear scan of the
registry; a device matches when it has the property AND its value equals
the requested one; first match wins. -/
def getDeviceByProperty (prop : String) (value : Value) :
    List DeviceState → Option DeviceState
  | [] => none
  | d :: ds =>
    match plookup d.properties prop with
    | some x => if x = value then some d else getDeviceByProperty prop value ds
    | none => getDeviceByProperty prop value ds

/-- The outcome of `device.__init__` (`device.py` lines 114-131): either a
fatal process abort (`exit(-1)`) on a duplicate identifier, or the grown
registry together with the boot transmission (`doComms` of ALL properties,
with the fresh `commsOK = True`) and the tick registrations. -/
inductive CreateResult where
  | fatal
  | ok (registry : List DeviceState) (boot : Option Emission) (sched : List (ℚ × String))
deriving DecidableEq

/-- `device.py` lines 114-131: abort when `getDeviceByProperty("$id", id)`
already finds a device; otherwise store the given property dict as-is,
set the default attributes, append to the registry, communicate all
properties and start the ticks. -/
def createDevice (cbInstalled : Bool) (device_id : String) (time : ℚ) (properties : Props)
    (devices : List DeviceState) : CreateResult :=
  match getDeviceByProperty "$id" (.str device_id) devices with
  | some _ => .fatal
  | none =>
    let d : DeviceState :=
      { device_id := device_id, properties := properties,
        commsReliability := 1, commsUpDownPeriod := 86400,
        batteryLife := DEFAULT_BATTERY_LIFE_S,
        batteryAutoreplace := false, commsOK := true }
    .ok (devices ++ [d]) (doComms cbInstalled true time properties) (startTicksSched d)

/-- The inbound event body of module-level `externalEvent`
(`device.py` lines 92-111): `{deviceId, eventName, arg?}`. -/
structure InEvent where
  deviceId : String
  eventName : String
  arg : Option Value
deriving DecidableEq

/-- The loop of `device.py` lines 99-105: find the first device whose
`$id` property equals the event's `deviceId`, returning the registry split
around it; reading `d.properties["$id"]` of a device without `$id` raises
`KeyError`. -/
def routeDevice : List DeviceState → String →
    Except PyError (Option (List DeviceState × DeviceState × List DeviceState))
  | [], _ => .ok none
  | d :: ds, devId =>
    match plookup d.properties "$id" with
    | none => .error (.keyError "$id")
    | some v =>
      if v = .str devId then .ok (some ([], d, ds))
      else
        match routeDevice ds devId with
        | .ok (some (pre, m, post)) => .ok (some (d :: pre, m, post))
        | .ok none => .ok none
        | .error e => .error e

/-- `device.py` lines 92-111 (module-level `externalEvent`): route the
event to the matching device and run its `externalEvent` method.  When the
loop finds no device, line 106 reads the undefined names `deviceID` and
`eventName` (the locals are `body["deviceId"]` / `body["eventName"]`), so
a `NameError` is raised before the intended "No such device" line 107 can
log; the blanket `except` then logs "Error processing external event".
Any exception out of the method is caught the same way, with the registry
unchanged (no mutation precedes a raise inside the method; `logString`
lines written before a caught failure are not modelled). -/
def dispatchExternalEvent (cbInstalled : Bool) (now : ℚ) (devices : List DeviceState)
    (body : InEvent) : List DeviceState × List String :=
  match routeDevice devices body.deviceId with
  | .error _ => (devices, ["Error processing external event"])
  | .ok none => (devices, ["Error processing external event"])
  | .ok (some (pre, d, post)) =>
    match externalEventMethod cbInstalled now d body.eventName (body.arg.getD .vnone) with
    | .ok r => (pre ++ r.dev :: post, r.logs)
    | .error _ => (devices, ["Error processing external event"])

/-! Canonical shapes for stating run lemmas about the decay chain.  After
any `setProperty` the property dict starts with the written key followed by
`$id` and `$ts` (see `newPropsFor` and `updateProps`), so a device inside a
battery-decay chain always has this shape. -/

/-- The property dict of a device inside a decay chain: `battery`, `$id`,
`$ts`, then the remaining bindings. -/
def cycProps (b ts : ℚ) (id : String) (rest : Props) : Props :=
  ("battery", .num b) :: ("$id", .str id) :: ("$ts", .num ts) :: rest

/-- The remaining bindings mention none of the three managed keys. -/
def cleanRest (rest : Props) : Bool :=
  rest.all (fun kv => kv.1 ≠ "battery" && kv.1 ≠ "$id" && kv.1 ≠ "$ts")

/-- A device state in canonical decay-chain shape. -/
def mkCyc (id : String) (rel per life : ℚ) (ar cok : Bool) (b ts : ℚ) (rest : Props) :
    DeviceState :=
  { device_id := id, properties := cycProps b ts id rest,
    commsReliability := rel, commsUpDownPeriod := per,
    batteryLife := life, batteryAutoreplace := ar, commsOK := cok }

/-! Concrete instances used by witnesses and counterexamples. -/

/-- A registered device whose battery has reached 0. -/
def c1dev : DeviceState :=
  { device_id := "d1", properties := [("$id", .str "d1"), ("battery", .num 0)] }

/-- A registered device with battery at 5. -/
def c2dev : DeviceState :=
  { device_id := "d2", properties := [("$id", .str "d2"), ("battery", .num 5)] }

/-- An autoreplace device with `batteryLife = 100` whose battery was set to
100 at simulated time 0. -/
def c3dev : DeviceState := mkCyc "d3" 1 86400 100 true true 100 0 []

/-- A device with battery at 1 and working comms, in canonical
decay-chain shape. -/
def c4dev : DeviceState := mkCyc "d4" 1 86400 300 false true 1 0 []

/-- The registry produced by `createDevice true "X" 0 [] []`: one device
with identifier `"X"` whose initial property dict was empty. -/
def c5reg : List DeviceState := [{ device_id := "X", properties := [] }]

/-- A device whose comms are currently down. -/
def c7dev : DeviceState :=
  { device_id := "d7", properties := [("$id", .str "d7")], commsOK := false }

/-- A registered device, target of no inbound event. -/
def c9dev : DeviceState :=
  { device_id := "dev1", properties := [("$id", .str "dev1"), ("battery", .num 50)] }

/-- A device with a `battery` property at 100 but no `$id`. -/
def c10dev : DeviceState :=
  { device_id := "da", properties := [("$id", .str "da"), ("firmware", .str "v1")] }

/-! Association-list lemmas. -/

/-- The keys of a property dict. -/
def pkeys (p : Props) : List String := p.map Prod.fst

theorem plookup_eq_none {p : Props} {x : String} (h : x ∉ pkeys p) : plookup p x = none := by
  induction p with
  | nil => rfl
  | cons kv rest ih =>
    have h1 : kv.1 ≠ x := by
      intro hx
      exact h (by simp [pkeys, hx])
    have h2 : x ∉ pkeys rest := by
      intro hx
      exact h (by simp [pkeys] at hx ⊢; exact Or.inr hx)
    simp only [plookup, if_neg h1]
    exact ih h2

theorem plookup_premove_ne {x k : String} (h : x ≠ k) (p : Props) :
    plookup (premove k p) x = plookup p x := by
  induction p with
  | nil => rfl
  | cons kv rest ih =>
    by_cases hk : kv.1 = k
    · have h1 : kv.1 ≠ x := fun hx => h (hx ▸ hk)
      simp only [premove, if_pos hk, plookup, if_neg h1]
      exact ih
    · simp only [premove, if_neg hk, plookup]
      by_cases hx : kv.1 = x
      · simp [if_pos hx]
      · simp only [if_neg hx]
        exact ih

theorem pkeys_premove_sublist (k : String) (p : Props) :
    (pkeys (premove k p)).Sublist (pkeys p) := by
  induction p with
  | nil => exact List.Sublist.refl _
  | cons kv rest ih =>
    by_cases hk : kv.1 = k
    · simp only [premove, if_pos hk, pkeys, List.map_cons]
      exact ih.cons kv.1
    · simp only [premove, if_neg hk, pkeys, List.map_cons]
      exact ih.cons₂ kv.1

theorem not_mem_pkeys_premove (k : String) (p : Props) : k ∉ pkeys (premove k p) := by
  induction p with
  | nil => simp [premove, pkeys]
  | cons kv rest ih =>
    by_cases hk : kv.1 = k
    · simpa only [premove, if_pos hk] using ih
    · simp only [premove, if_neg hk, pkeys, List.map_cons, List.mem_cons]
      rintro (h | h)
      · exact hk h.symm
      · exact ih h

theorem plookup_premove_self (k : String) (p : Props) :
    plookup (premove k p) k = none :=
  plookup_eq_none (not_mem_pkeys_premove k p)

theorem plookup_pset_self (p : Props) (k : String) (v : Value) :
    plookup (pset p k v) k = some v := by
  simp [plookup, pset]

theorem plookup_pset_ne {x k : String} (h : x ≠ k) (p : Props) (v : Value) :
    plookup (pset p k v) x = plookup p x := by
  have h1 : k ≠ x := fun hx => h hx.symm
  simp only [pset, plookup, if_neg h1]
  exact plookup_premove_ne h p

theorem pkeys_pset_nodup {p : Props} (k : String) (v : Value) (h : (pkeys p).Nodup) :
    (pkeys (pset p k v)).Nodup := by
  simp only [pset, pkeys, List.map_cons, List.nodup_cons]
  exact ⟨not_mem_pkeys_premove k p, ((pkeys_premove_sublist k p).nodup h)⟩

theorem updateProps_lookup_none {np : Props} {x : String} (h : plookup np x = none)
    (p : Props) : plookup (updateProps p np) x = plookup p x := by
  induction np generalizing p with
  | nil => rfl
  | cons kv rest ih =>
    simp only [plookup] at h
    by_cases hk : kv.1 = x
    · rw [if_pos hk] at h; cases h
    · rw [if_neg hk] at h
      show plookup (updateProps (pset p kv.1 kv.2) rest) x = plookup p x
      rw [ih h, plookup_pset_ne (fun hx => hk hx.symm)]

theorem updateProps_lookup_some {np : Props} {x : String} {v : Value}
    (hnd : (pkeys np).Nodup) (h : plookup np x = some v) (p : Props) :
    plookup (updateProps p np) x = some v := by
  induction np generalizing p with
  | nil => cases h
  | cons kv rest ih =>
    simp only [pkeys, List.map_cons, List.nodup_cons] at hnd
    simp only [plookup] at h
    by_cases hk : kv.1 = x
    · rw [if_pos hk] at h
      have hnone : plookup rest x = none :=
        plookup_eq_none (by simpa [pkeys, hk] using hnd.1)
      show plookup (updateProps (pset p kv.1 kv.2) rest) x = some v
      rw [updateProps_lookup_none hnone, hk, plookup_pset_self]
      exact h
    · rw [if_neg hk] at h
      exact ih hnd.2 h (pset p kv.1 kv.2)

theorem newPropsFor_nodup (d : DeviceState) (t : ℚ) (k : String) (v : Value) :
    (pkeys (newPropsFor d t k v)).Nodup := by
  unfold newPropsFor
  apply pkeys_pset_nodup
  apply pkeys_pset_nodup
  apply pkeys_pset_nodup
  simp [pkeys]

theorem newPropsFor_ts (d : DeviceState) (t : ℚ) (k : String) (v : Value) :
    plookup (newPropsFor d t k v) "$ts" = some (.num t) :=
  plookup_pset_self _ _ _

theorem newPropsFor_id (d : DeviceState) (t : ℚ) (k : String) (v : Value) :
    plookup (newPropsFor d t k v) "$id" = some (.str d.device_id) := by
  unfold newPropsFor
  rw [plookup_pset_ne (by decide), plookup_pset_self]

theorem newPropsFor_key {k : String} (hts : k ≠ "$ts") (hid : k ≠ "$id")
    (d : DeviceState) (t : ℚ) (v : Value) :
    plookup (newPropsFor d t k v) k = some v := by
  unfold newPropsFor
  rw [plookup_pset_ne hts, plookup_pset_ne hid, plookup_pset_self]

theorem setProperty_lookup_ts (cb : Bool) (t : ℚ) (d : DeviceState) (k : String) (v : Value) :
    plookup (setProperty cb t d k v).1.properties "$ts" = some (.num t) :=
  updateProps_lookup_some (newPropsFor_nodup d t k v) (newPropsFor_ts d t k v) _

theorem setProperty_lookup_id (cb : Bool) (t : ℚ) (d : DeviceState) (k : String) (v : Value) :
    plookup (setProperty cb t d k v).1.properties "$id" = some (.str d.device_id) :=
  updateProps_lookup_some (newPropsFor_nodup d t k v) (newPropsFor_id d t k v) _

theorem setProperty_lookup_key {k : String} (hts : k ≠ "$ts") (hid : k ≠ "$id")
    (cb : Bool) (t : ℚ) (d : DeviceState) (v : Value) :
    plookup (setProperty cb t d k v).1.properties k = some v :=
  updateProps_lookup_some (newPropsFor_nodup d t k v) (newPropsFor_key hts hid d t v) _

theorem setProperty_fields (cb : Bool) (t : ℚ) (d : DeviceState) (k : String) (v : Value) :
    (setProperty cb t d k v).1.device_id = d.device_id ∧
    (setProperty cb t d k v).1.batteryLife = d.batteryLife ∧
    (setProperty cb t d k v).1.batteryAutoreplace = d.batteryAutoreplace ∧
    (setProperty cb t d k v).1.commsOK = d.commsOK :=
  ⟨rfl, rfl, rfl, rfl⟩

theorem premove_eq_self {k : String} {rest : Props}
    (h : ∀ kv ∈ rest, kv.1 ≠ k) : premove k rest = rest := by
  induction rest with
  | nil => rfl
  | cons kv r ih =>
    rw [premove, if_neg (h kv (by simp)), ih (fun x hx => h x (by simp [hx]))]

theorem cleanRest_spec {rest : Props} (h : cleanRest rest = true) :
    ∀ kv ∈ rest, kv.1 ≠ "battery" ∧ kv.1 ≠ "$id" ∧ kv.1 ≠ "$ts" := by
  intro kv hkv
  have hh := List.all_eq_true.mp h kv hkv
  simp only [Bool.and_eq_true, decide_eq_true_eq] at hh
  exact ⟨hh.1.1, hh.1.2, hh.2⟩

theorem premove_clean_bat {rest : Props} (h : cleanRest rest = true) :
    premove "battery" rest = rest :=
  premove_eq_self (fun kv hkv => (cleanRest_spec h kv hkv).1)

theorem premove_clean_id {rest : Props} (h : cleanRest rest = true) :
    premove "$id" rest = rest :=
  premove_eq_self (fun kv hkv => (cleanRest_spec h kv hkv).2.1)

theorem premove_clean_ts {rest : Props} (h : cleanRest rest = true) :
    premove "$ts" rest = rest :=
  premove_eq_self (fun kv hkv => (cleanRest_spec h kv hkv).2.2)

theorem tick_cyc_pos (cb : Bool) (id : String) (rel per life : ℚ) (ar cok : Bool)
    {rest : Props} (hc : cleanRest rest = true) (b ts t' : ℚ) (hb : 0 < b) :
    tickBatteryDecay cb t' (mkCyc id rel per life ar cok b ts rest)
      = .ok ⟨mkCyc id rel per life ar cok (b - 1) t' rest,
             doComms cb cok t'
               [("$ts", .num t'), ("$id", .str id), ("battery", .num (b - 1))],
             some (life / 100)⟩ := by
  have h1 := premove_clean_bat hc
  have h2 := premove_clean_id hc
  have h3 := premove_clean_ts hc
  simp [tickBatteryDecay, mkCyc, cycProps, plookup, valGtZero, hb, valSub1, setProperty,
        newPropsFor, updateProps, pset, premove, h1, h2, h3]

theorem tick_cyc_zero (cb : Bool) (id : String) (rel per life : ℚ) (cok : Bool)
    {rest : Props} (hc : cleanRest rest = true) (ts t' : ℚ) :
    tickBatteryDecay cb t' (mkCyc id rel per life true cok 0 ts rest)
      = .ok ⟨mkCyc id rel per life true cok 100 t' rest,
             doComms cb cok t'
               [("$ts", .num t'), ("$id", .str id), ("battery", .num 100)],
             some (life / 100)⟩ := by
  have h1 := premove_clean_bat hc
  have h2 := premove_clean_id hc
  have h3 := premove_clean_ts hc
  simp [tickBatteryDecay, mkCyc, cycProps, plookup, valGtZero, valSub1, setProperty,
        newPropsFor, updateProps, pset, premove, h1, h2, h3]

theorem mkCyc_batteryLife (id : String) (rel per life : ℚ) (ar cok : Bool) (b ts : ℚ)
    (rest : Props) : (mkCyc id rel per life ar cok b ts rest).batteryLife = life := rfl

theorem mkCyc_properties (id : String) (rel per life : ℚ) (ar cok : Bool) (b ts : ℚ)
    (rest : Props) : (mkCyc id rel per life ar cok b ts rest).properties
      = cycProps b ts id rest := rfl

theorem plookup_cycProps_bat (b ts : ℚ) (id : String) (rest : Props) :
    plookup (cycProps b ts id rest) "battery" = some (.num b) := by
  simp [cycProps, plookup]

theorem plookup_cycProps_ts (b ts : ℚ) (id : String) (rest : Props) :
    plookup (cycProps b ts id rest) "$ts" = some (.num ts) := by
  simp [cycProps, plookup]

theorem decayRun_dec (cb : Bool) (id : String) (rel per life : ℚ) (ar cok : Bool)
    {rest : Props} (hc : cleanRest rest = true) :
    ∀ (n : ℕ) (b : ℚ), b = (n : ℚ) + 1 → ∀ (t s : ℚ),
      decayRun cb (n + 1) t (mkCyc id rel per life ar cok b s rest)
        = mkCyc id rel per life ar cok 0 (t + (n : ℚ) * (life / 100)) rest := by
  intro n
  induction n with
  | zero =>
    intro b hb t s
    subst hb
    rw [decayRun, tick_cyc_pos cb id rel per life ar cok hc _ s t (by positivity)]
    dsimp only
    rw [decayRun]
    norm_num
  | succ n ih =>
    intro b hb t s
    subst hb
    rw [decayRun, tick_cyc_pos cb id rel per life ar cok hc _ s t (by positivity)]
    dsimp only
    rw [mkCyc_batteryLife,
      ih (((n + 1 : ℕ) : ℚ) + 1 - 1) (by push_cast; ring) (t + life / 100) t]
    congr 1
    push_cast
    ring

theorem decayRun_cyc_aux (cb : Bool) (id : String) (rel per life : ℚ) (cok : Bool)
    {rest : Props} (hc : cleanRest rest = true) :
    ∀ (k : ℕ) (b : ℚ) (c : ℕ), b = ((c : ℕ) : ℚ) → c ≤ 100 → ∀ (t s : ℚ),
      decayRun cb (k + 1) t (mkCyc id rel per life true cok b s rest)
        = mkCyc id rel per life true cok (((c + 100 * (k + 1)) % 101 : ℕ) : ℚ)
            (t + (k : ℚ) * (life / 100)) rest := by
  intro k
  induction k with
  | zero =>
    intro b c hb hc100 t s
    subst hb
    match c with
    | 0 =>
      rw [decayRun, Nat.cast_zero, tick_cyc_zero cb id rel per life cok hc s t]
      dsimp only
      rw [decayRun]
      norm_num
    | c' + 1 =>
      rw [decayRun,
        tick_cyc_pos cb id rel per life true cok hc _ s t (by positivity)]
      dsimp only
      rw [decayRun]
      have h2 : ((c' + 1 + 100 * (0 + 1)) % 101 : ℕ) = c' + 1 + 100 - 101 := by omega
      rw [h2]
      have h3 : (c' + 1 + 100 - 101 : ℕ) = c' := by omega
      rw [h3]
      have h1 : (((c' + 1 : ℕ) : ℚ)) - 1 = ((c' : ℕ) : ℚ) := by push_cast; ring
      rw [h1]
      norm_num
  | succ k ih =>
    intro b c hb hc100 t s
    subst hb
    match c with
    | 0 =>
      rw [decayRun, Nat.cast_zero, tick_cyc_zero cb id rel per life cok hc s t]
      dsimp only
      rw [mkCyc_batteryLife,
        ih 100 100 (by norm_num) (by norm_num) (t + life / 100) t]
      have h2 : ((100 + 100 * (k + 1)) % 101 : ℕ) = ((0 + 100 * (k + 1 + 1)) % 101 : ℕ) := by
        omega
      rw [h2]
      congr 1
      push_cast
      ring
    | c' + 1 =>
      rw [decayRun,
        tick_cyc_pos cb id rel per life true cok hc _ s t (by positivity)]
      dsimp only
      rw [mkCyc_batteryLife,
        ih (((c' + 1 : ℕ) : ℚ) - 1) c' (by push_cast; ring) (by omega) (t + life / 100) t]
      have h2 : ((c' + 100 * (k + 1)) % 101 : ℕ)
          = ((c' + 1 + 100 * (k + 1 + 1)) % 101 : ℕ) := by omega
      rw [h2]
      congr 1
      push_cast
      ring

/-- C8: at `rssi = GOOD_RSSI` the radio factor of `tickCommsUpDown` equals
exactly 1.0, at `rssi = BAD_RSSI` it equals exactly 0.0, and between the
two reference levels it is monotonically non-increasing as rssi worsens
(moves from `GOOD_RSSI` toward `BAD_RSSI`). -/
theorem claim8_rssi_skew :
    radioFactor GOOD_RSSI = 1 ∧ radioFactor BAD_RSSI = 0 ∧
    ∀ r1 r2 : ℚ, BAD_RSSI ≤ r2 → r2 ≤ r1 → r1 ≤ GOOD_RSSI →
      radioFactor r2 ≤ radioFactor r1 := by
  refine ⟨by norm_num [radioFactor, radioGoodnessLinear, GOOD_RSSI, BAD_RSSI],
          by norm_num [radioFactor, radioGoodnessLinear, GOOD_RSSI, BAD_RSSI], ?_⟩
  intro r1 r2 _ h12 hg
  have key : (1 - radioGoodnessLinear r1)^4 ≤ (1 - radioGoodnessLinear r2)^4 := by
    apply pow_le_pow_left₀
    · unfold radioGoodnessLinear GOOD_RSSI BAD_RSSI
      have hg' : r1 ≤ -50 := by simpa [GOOD_RSSI] using hg
      ring_nf
      linarith
    · unfold radioGoodnessLinear GOOD_RSSI BAD_RSSI
      ring_nf
      linarith
  unfold radioFactor
  linarith

/-- C8 witness: the monotonicity part applied at `r1 = -60`, `r2 = -100`. -/
theorem claim8_witness :
    BAD_RSSI ≤ (-100 : ℚ) ∧ (-100 : ℚ) ≤ (-60 : ℚ) ∧ (-60 : ℚ) ≤ GOOD_RSSI ∧
    radioFactor (-100) ≤ radioFactor (-60) :=
  ⟨by norm_num [BAD_RSSI], by norm_num, by norm_num [GOOD_RSSI],
   claim8_rssi_skew.2.2 (-60) (-100) (by norm_num [BAD_RSSI]) (by norm_num)
     (by norm_num [GOOD_RSSI])⟩

/-- C6 counterexample: with `mu = sigma = 1/10` and normal draw 0, the
sampled life is the floor value 1, strictly above the claimed upper bound
`mu + 2*sigma = 3/10` (so the claimed interval containment fails for any
positive epsilon). -/
theorem claim6_counterexample :
    (1 : ℚ)/10 + 2 * (1/10) < sample_life (1/10) (1/10) 0 := by
  norm_num [sample_life]

/-- C6 amended: for `sigma ≥ 0`, the sampled life of
`devices/battery.py` always lies in `[max(mu - 2*sigma, 1), max(mu + 2*sigma, 1)]`:
the positive floor is the constant 1.0 and it can exceed `mu + 2*sigma`,
so the upper bound is `max(mu + 2*sigma, 1)`, not `mu + 2*sigma`. -/
theorem claim6_amended (mu sigma draw : ℚ) (h : 0 ≤ sigma) :
    max (mu - 2 * sigma) 1 ≤ sample_life mu sigma draw ∧
    sample_life mu sigma draw ≤ max (mu + 2 * sigma) 1 := by
  unfold sample_life
  constructor
  · exact max_le_max (le_max_right _ _) le_rfl
  · exact max_le_max (max_le (min_le_right _ _) (by linarith)) le_rfl

/-- C6 witness: the amended bounds at `mu = 5`, `sigma = 1`, draw 4. -/
theorem claim6_witness :
    (0 : ℚ) ≤ 1 ∧
    (max ((5 : ℚ) - 2 * 1) 1 ≤ sample_life 5 1 4 ∧
     sample_life 5 1 4 ≤ max ((5 : ℚ) + 2 * 1) 1) :=
  ⟨by norm_num, claim6_amended 5 1 4 (by norm_num)⟩

/-- C5 counterexample: creating a device with identifier `"X"` and an empty
initial property dict, then creating a second device with the same
identifier, does NOT fail fatally: the duplicate guard looks the identifier
up in the `"$id"` property, which the first device's dict lacks, so the
second creation succeeds and the registry holds two devices with the same
identifier. -/
theorem claim5_counterexample :
    createDevice true "X" 0 [] []
      = .ok c5reg (some ⟨true, 0, []⟩) [(3600, "tickHourly"), (0, "tickProductUsage")] ∧
    c5reg = [{ device_id := "X", properties := [] }] ∧
    createDevice true "X" 0 [] c5reg
      = .ok (c5reg ++ [{ device_id := "X", properties := [] }]) (some ⟨true, 0, []⟩)
          [(3600, "tickHourly"), (0, "tickProductUsage")] :=
  ⟨rfl, rfl, rfl⟩

/-- C5 amended: when the identifier IS recorded under the `"$id"` property
of an already-registered device (as happens when creations pass `$id` in
the initial properties), a duplicate creation aborts fatally, and the
fatal abort adds nothing to the registry. -/
theorem claim5_amended (cb : Bool) (id : String) (t : ℚ) (props : Props)
    (devices : List DeviceState) (d : DeviceState)
    (h : getDeviceByProperty "$id" (.str id) devices = some d) :
    createDevice cb id t props devices = .fatal := by
  unfold createDevice
  rw [h]

/-- C5 witness: a duplicate of the registered device `c1dev`. -/
theorem claim5_witness :
    getDeviceByProperty "$id" (.str "d1") [c1dev] = some c1dev ∧
    createDevice true "d1" 0 [] [c1dev] = .fatal :=
  ⟨rfl, claim5_amended true "d1" 0 [] [c1dev] c1dev rfl⟩

/-- C7 counterexample: on a device whose comms are down, `setProperty`
mutates the property map but propagates nothing: no telemetry-sink
notification and no structured-log row is produced, refuting the
unconditional "immediately propagated". -/
theorem claim7_counterexample :
    (setProperty true 7 c7dev "temperature" (.num 20)).2 = none ∧
    plookup (setProperty true 7 c7dev "temperature" (.num 20)).1.properties "temperature"
      = some (.num 20) :=
  ⟨rfl, rfl⟩

/-- C7 amended: every mutation through `setProperty` / `setProperties`
(the latter for a batch with distinct keys, as a Python dict has) updates
`$ts` to the mutation time and forces `$id` to the device identifier; the
changed properties are handed to `doComms`, which propagates them to the
structured log (and to the telemetry sink when a callback is installed)
exactly when `commsOK` is true, and drops them when comms is down. -/
theorem claim7_amended (cb : Bool) (t : ℚ) (d : DeviceState) (k : String) (v : Value)
    (np : Props) (hnp : (pkeys np).Nodup) :
    (plookup (setProperty cb t d k v).1.properties "$ts" = some (.num t)) ∧
    (plookup (setProperty cb t d k v).1.properties "$id" = some (.str d.device_id)) ∧
    ((setProperty cb t d k v).2
      = if d.commsOK then some ⟨cb, t, newPropsFor d t k v⟩ else none) ∧
    (plookup (setProperties cb t d np).1.properties "$ts" = some (.num t)) ∧
    (plookup (setProperties cb t d np).1.properties "$id" = some (.str d.device_id)) ∧
    ((setProperties cb t d np).2
      = if d.commsOK then
          some ⟨cb, t, pset (pset np "$id" (.str d.device_id)) "$ts" (.num t)⟩
        else none) := by
  have hnp2 : (pkeys (pset (pset np "$id" (.str d.device_id)) "$ts" (.num t))).Nodup :=
    pkeys_pset_nodup _ _ (pkeys_pset_nodup _ _ hnp)
  refine ⟨setProperty_lookup_ts cb t d k v, setProperty_lookup_id cb t d k v, rfl, ?_, ?_, rfl⟩
  · exact updateProps_lookup_some hnp2 (plookup_pset_self _ _ _) _
  · exact updateProps_lookup_some hnp2
      (by rw [plookup_pset_ne (by decide), plookup_pset_self]) _

/-- C7 witness: the amended statement at a concrete device and batch. -/
theorem claim7_witness :
    (pkeys [("pressure", Value.num 3)]).Nodup ∧
    ((plookup (setProperty true 3 c1dev "light" (.num 2)).1.properties "$ts"
        = some (.num 3)) ∧
     (plookup (setProperty true 3 c1dev "light" (.num 2)).1.properties "$id"
        = some (.str c1dev.device_id)) ∧
     ((setProperty true 3 c1dev "light" (.num 2)).2
        = if c1dev.commsOK then some ⟨true, 3, newPropsFor c1dev 3 "light" (.num 2)⟩
          else none) ∧
     (plookup (setProperties true 3 c1dev [("pressure", Value.num 3)]).1.properties "$ts"
        = some (.num 3)) ∧
     (plookup (setProperties true 3 c1dev [("pressure", Value.num 3)]).1.properties "$id"
        = some (.str c1dev.device_id)) ∧
     ((setProperties true 3 c1dev [("pressure", Value.num 3)]).2
        = if c1dev.commsOK then
            some ⟨true, 3, pset (pset [("pressure", Value.num 3)] "$id"
              (.str c1dev.device_id)) "$ts" (.num 3)⟩
          else none)) :=
  ⟨by decide, claim7_amended true 3 c1dev "light" (.num 2) [("pressure", Value.num 3)]
    (by decide)⟩

/-- C4 counterexample: in `device.py` the telemetry gate `doComms` checks
only `commsOK`: with the flag up it transmits a property batch containing
`battery = 0`, and a decay tick on a device at battery 1 with working
comms actually produces such a transmission while leaving the device in a
battery-0 state — telemetry IS communicated with battery at 0, and whether
it is depends exactly on the reliability flag. -/
theorem claim4_counterexample :
    doComms true true 5 [("battery", Value.num 0)] ≠ none ∧
    plookup (decayRun true 1 5 c4dev).properties "battery" = some (Value.num 0) ∧
    (match tickBatteryDecay true 5 c4dev with
      | .ok r => r.emission.isSome
      | .error _ => false) = true := by
  have htick := tick_cyc_pos true "d4" (1 : ℚ) 86400 300 false true
    (show cleanRest [] = true from rfl) 1 0 5 (by norm_num)
  refine ⟨by decide, ?_, ?_⟩
  · show plookup (decayRun true 1 5 (mkCyc "d4" 1 86400 300 false true 1 0 [])).properties
      "battery" = some (Value.num 0)
    rw [decayRun, htick]
    dsimp only
    rw [decayRun]
    show plookup (cycProps (1 - 1) 5 "d4" []) "battery" = some (Value.num 0)
    rw [cycProps]
    show some (Value.num (1 - 1)) = some (Value.num 0)
    norm_num
  · show (match tickBatteryDecay true 5 (mkCyc "d4" 1 86400 300 false true 1 0 []) with
      | .ok r => r.emission.isSome
      | .error _ => false) = true
    rw [htick]
    rfl

/-- C4 amended: the battery-forces-comms-down rule holds in the `Battery`
behavior module (`devices/battery.py`): `comms_ok` is false whenever the
battery property is ≤ 0, independent of the base-class flag.  In
`device.py` itself, `doComms` transmits whenever `commsOK` is true,
independent of the battery level. -/
theorem claim4_amended :
    (∀ (superOK : Bool) (p : Props) (q : ℚ),
        plookup p "battery" = some (.num q) → q ≤ 0 →
        battery_comms_ok superOK p = false) ∧
    (∀ (cb : Bool) (t : ℚ) (props : Props),
        doComms cb true t props = some ⟨cb, t, props⟩) := by
  constructor
  · intro superOK p q hq hle
    unfold battery_comms_ok
    rw [hq]
    simp [valGtZero, not_lt.mpr hle]
  · intro cb t props
    rfl

/-- C4 witness: the Battery-module rule at battery 0 with the base flag up. -/
theorem claim4_witness :
    plookup [("battery", Value.num 0)] "battery" = some (Value.num 0) ∧
    (0 : ℚ) ≤ 0 ∧
    battery_comms_ok true [("battery", Value.num 0)] = false :=
  ⟨by decide, le_refl 0,
   claim4_amended.1 true [("battery", Value.num 0)] 0 (by decide) (le_refl 0)⟩

/-- C9: an inbound event for an unregistered identifier leaves every
device unchanged and the dispatcher returns normally — but the logged
message is the blanket "Error processing external event" produced by the
`except` handler catching the `NameError` of `device.py` line 106 (which
reads the undefined names `deviceID` / `eventName`), not the intended
"No such device" message. -/
theorem claim9_no_such_device :
    dispatchExternalEvent true 0 [c9dev] ⟨"ghost", "upgradeFirmware", none⟩
      = ([c9dev], ["Error processing external event"]) :=
  rfl

theorem replaceBattery_sets_100 (cb : Bool) (now : ℚ) (d : DeviceState) (idv : Value)
    (hid : plookup d.properties "$id" = some idv) (arg : Value) :
    ∃ r : EvResult,
      externalEventMethod cb now d "replaceBattery" arg = .ok r ∧
      plookup r.dev.properties "battery" = some (.num 100) := by
  unfold externalEventMethod
  rw [hid]
  dsimp only
  rw [if_pos rfl]
  dsimp only
  rw [setProperty_lookup_key (by decide) (by decide) cb now d (.num 100)]
  dsimp only
  rw [if_neg (show ¬valLeZero (.num 100) = true by norm_num [valLeZero])]
  by_cases hok : d.commsOK
  · rw [if_neg (show ¬((setProperty cb now d "battery" (.num 100)).1.commsOK = false) by
      show ¬(d.commsOK = false)
      simp [hok])]
    rw [if_neg (show ¬(("replaceBattery" : String) = "upgradeFirmware") by decide),
        if_neg (show ¬(("replaceBattery" : String) = "factoryReset") by decide)]
    exact ⟨_, rfl, setProperty_lookup_key (by decide) (by decide) cb now d (.num 100)⟩
  · rw [if_pos (show (setProperty cb now d "battery" (.num 100)).1.commsOK = false by
      show d.commsOK = false
      simpa using hok)]
    exact ⟨_, rfl, setProperty_lookup_key (by decide) (by decide) cb now d (.num 100)⟩

/-- C1: on a registered device (its `$id` property present) whose battery
has reached 0, every external event other than `replaceBattery` is
ignored: the state comes back unchanged, nothing is emitted, nothing is
registered, and only the receipt and "ignored" lines are logged; while
`replaceBattery` always sets `battery` to 100, regardless of the current
battery value or comms state. -/
theorem claim1_battery_gate (cb : Bool) (now : ℚ) (d : DeviceState) (idv : Value)
    (hid : plookup d.properties "$id" = some idv) :
    (∀ (ev : String) (arg : Value) (q : ℚ), ev ≠ "replaceBattery" →
        plookup d.properties "battery" = some (.num q) → q ≤ 0 →
        externalEventMethod cb now d ev arg
          = .ok ⟨d, [], ["Processing external event " ++ ev,
                         "...ignored because battery flat"], []⟩) ∧
    (∀ (arg : Value), ∃ r : EvResult,
        externalEventMethod cb now d "replaceBattery" arg = .ok r ∧
        plookup r.dev.properties "battery" = some (.num 100)) := by
  constructor
  · intro ev arg q hev hbat hq
    unfold externalEventMethod
    rw [hid]
    dsimp only
    rw [if_neg hev]
    dsimp only
    rw [hbat]
    dsimp only
    rw [if_pos (show valLeZero (.num q) = true by simp [valLeZero, hq])]
  · exact replaceBattery_sets_100 cb now d idv hid

/-- C1 witness: the gate and the replace on `c1dev` (battery at 0). -/
theorem claim1_witness :
    plookup c1dev.properties "$id" = some (.str "d1") ∧
    externalEventMethod true 0 c1dev "upgradeFirmware" (.str "fw2")
      = .ok ⟨c1dev, [], ["Processing external event " ++ "upgradeFirmware",
                         "...ignored because battery flat"], []⟩ ∧
    (∃ r : EvResult,
        externalEventMethod true 0 c1dev "replaceBattery" Value.vnone = .ok r ∧
        plookup r.dev.properties "battery" = some (.num 100)) :=
  ⟨rfl,
   (claim1_battery_gate true 0 c1dev (.str "d1") rfl).1 "upgradeFirmware" (.str "fw2") 0
     (by decide) rfl (le_refl 0),
   (claim1_battery_gate true 0 c1dev (.str "d1") rfl).2 Value.vnone⟩

/-- C10: on a device with `$id` but no `battery` property, every external
event other than `replaceBattery` raises `KeyError` at the battery
precondition gate (the lookup of the absent `battery` property), so
`upgradeFirmware` and `factoryReset` never mutate such a device;
`replaceBattery` instead creates the battery property at 100 before the
gate is evaluated. -/
theorem claim10_missing_battery (cb : Bool) (now : ℚ) (d : DeviceState) (idv : Value)
    (hid : plookup d.properties "$id" = some idv)
    (hbat : plookup d.properties "battery" = none) :
    (∀ (ev : String) (arg : Value), ev ≠ "replaceBattery" →
        externalEventMethod cb now d ev arg = .error (.keyError "battery")) ∧
    (∀ (arg : Value), ∃ r : EvResult,
        externalEventMethod cb now d "replaceBattery" arg = .ok r ∧
        plookup r.dev.properties "battery" = some (.num 100)) := by
  constructor
  · intro ev arg hev
    unfold externalEventMethod
    rw [hid]
    dsimp only
    rw [if_neg hev]
    dsimp only
    rw [hbat]
  · exact replaceBattery_sets_100 cb now d idv hid

/-- C10 witness: `factoryReset` and `replaceBattery` on `c10dev`
(no battery property). -/
theorem claim10_witness :
    plookup c10dev.properties "$id" = some (.str "da") ∧
    plookup c10dev.properties "battery" = none ∧
    externalEventMethod true 2 c10dev "factoryReset" Value.vnone
      = .error (.keyError "battery") ∧
    (∃ r : EvResult,
        externalEventMethod true 2 c10dev "replaceBattery" Value.vnone = .ok r ∧
        plookup r.dev.properties "battery" = some (.num 100)) :=
  ⟨rfl, rfl,
   (claim10_missing_battery true 2 c10dev (.str "da") rfl rfl).1 "factoryReset" Value.vnone
     (by decide),
   (claim10_missing_battery true 2 c10dev (.str "da") rfl rfl).2 Value.vnone⟩

/-- C2: a decay tick with battery `q > 0` decrements the battery by
exactly 1 and re-registers the decay tick `batteryLife/100` later; from
battery 100 (autoreplace disabled) the chain reaches exactly 0 after 100
ticks; and a decay tick at battery 0 with autoreplace disabled leaves the
device unchanged and registers no further tick (terminal state). -/
theorem claim2_decay_monotonic :
    (∀ (cb : Bool) (now : ℚ) (d : DeviceState) (q : ℚ),
        plookup d.properties "battery" = some (.num q) → 0 < q →
        ∃ (d' : DeviceState) (em : Option Emission),
          tickBatteryDecay cb now d = .ok ⟨d', em, some (d.batteryLife / 100)⟩ ∧
          plookup d'.properties "battery" = some (.num (q - 1))) ∧
    (∀ (cb : Bool) (id : String) (rel per life : ℚ) (cok : Bool) (rest : Props),
        cleanRest rest = true → ∀ (t s : ℚ),
        plookup (decayRun cb 100 t
            (mkCyc id rel per life false cok 100 s rest)).properties "battery"
          = some (.num 0)) ∧
    (∀ (cb : Bool) (now : ℚ) (d : DeviceState),
        plookup d.properties "battery" = some (.num 0) →
        d.batteryAutoreplace = false →
        tickBatteryDecay cb now d = .ok ⟨d, none, none⟩) := by
  refine ⟨?_, ?_, ?_⟩
  · intro cb now d q hq hpos
    refine ⟨(setProperty cb now d "battery" (.num (q - 1))).1,
            (setProperty cb now d "battery" (.num (q - 1))).2, ?_, ?_⟩
    · unfold tickBatteryDecay
      rw [hq]
      dsimp only
      rw [if_pos (show valGtZero (.num q) = true by simp [valGtZero, hpos])]
      dsimp only [valSub1]
    · exact setProperty_lookup_key (by decide) (by decide) cb now d (.num (q - 1))
  · intro cb id rel per life cok rest hc t s
    have h := decayRun_dec cb id rel per life false cok hc 99 100 (by norm_num) t s
    rw [show (99 + 1 : ℕ) = 100 from rfl] at h
    rw [h]
    simp [mkCyc, cycProps, plookup]
  · intro cb now d hq har
    unfold tickBatteryDecay
    rw [hq]
    dsimp only
    rw [if_neg (show ¬valGtZero (.num 0) = true by norm_num [valGtZero])]
    rw [if_neg (show ¬(d.batteryAutoreplace = true) by simp [har])]

/-- C2 witness: one tick on `c2dev` (battery 5), and a full 100-tick run
from battery 100. -/
theorem claim2_witness :
    plookup c2dev.properties "battery" = some (.num 5) ∧ (0 : ℚ) < 5 ∧
    (∃ (d' : DeviceState) (em : Option Emission),
        tickBatteryDecay true 9 c2dev = .ok ⟨d', em, some (c2dev.batteryLife / 100)⟩ ∧
        plookup d'.properties "battery" = some (.num (5 - 1))) ∧
    cleanRest [] = true ∧
    plookup (decayRun true 100 1
        (mkCyc "w" 1 2 300 false true 100 0 [])).properties "battery"
      = some (.num 0) :=
  ⟨rfl, by norm_num,
   claim2_decay_monotonic.1 true 9 c2dev 5 rfl (by norm_num), rfl,
   claim2_decay_monotonic.2.1 true "w" 1 2 300 true [] rfl 1 0⟩

/-- C3 counterexample: `c3dev` is an autoreplace device with sampled life
100 whose battery was set to 100 at simulated time 0; its decay ticks fire
at times 1, 2, … (`life/100` apart).  After 100 ticks — simulated time
100, exactly one `life` — the battery is 0, and it first returns to 100
only on tick 101 at simulated time 101 (the `$ts` stamped by the
restoring mutation), never at any of ticks 1..100.  The full
100 → 0 → 100 cycle hence spans 101 time units, and 101 ≠ 100 = life. -/
theorem claim3_counterexample :
    plookup (decayRun true 100 1 c3dev).properties "battery" = some (.num 0) ∧
    plookup (decayRun true 100 1 c3dev).properties "$ts" = some (.num 100) ∧
    plookup (decayRun true 101 1 c3dev).properties "battery" = some (.num 100) ∧
    plookup (decayRun true 101 1 c3dev).properties "$ts" = some (.num 101) ∧
    ((List.range 100).all (fun k =>
        plookup (decayRun true (k + 1) 1 c3dev).properties "battery"
          != some (.num 100))) = true ∧
    (101 : ℚ) ≠ 100 := by
  have haux : ∀ n : ℕ, decayRun true (n + 1) 1 c3dev
      = mkCyc "d3" 1 86400 100 true true (((100 + 100 * (n + 1)) % 101 : ℕ) : ℚ)
          (1 + (n : ℚ) * (100 / 100)) [] := by
    intro n
    exact decayRun_cyc_aux true "d3" 1 86400 100 true
      (show cleanRest [] = true from rfl) n 100 100 (by norm_num) le_rfl 1 0
  have h99 := haux 99
  have h100 := haux 100
  norm_num at h99 h100
  refine ⟨?_, ?_, ?_, ?_, ?_, by norm_num⟩
  · rw [h99]; rfl
  · rw [h99]; rfl
  · rw [h100]; rfl
  · rw [h100]; rfl
  · rw [List.all_eq_true]
    intro k hk
    have hklt : k < 100 := List.mem_range.mp hk
    rw [haux k, mkCyc_properties, plookup_cycProps_bat]
    have hne : ((100 + 100 * (k + 1)) % 101 : ℕ) ≠ 100 := by omega
    simp only [bne_iff_ne, ne_eq, Option.some.injEq, Value.num.injEq]
    intro hcast
    exact hne (by exact_mod_cast hcast)

/-- C3 amended: with autoreplace enabled the battery does cycle
100 → 0 → 100 → … indefinitely under decay ticks scheduled `life/100`
after one another, but a full cycle from battery=100 back to battery=100
spans 101 ticks — `life + life/100` of simulated time — not `life`:
after `101*m + 101` ticks the battery is back at 100 (stamped at
`t0 + (101*m + 100)*(life/100)`, where `t0` is the time of the first
tick), after `101*m + 100` ticks it is at 0, and consecutive restore
times differ by exactly `life + life/100`. -/
theorem claim3_amended (cb : Bool) (id : String) (rel per life : ℚ) (cok : Bool)
    (rest : Props) (hc : cleanRest rest = true) (t0 s : ℚ) (m : ℕ) :
    plookup (decayRun cb (101 * m + 101) t0
        (mkCyc id rel per life true cok 100 s rest)).properties "battery"
      = some (.num 100) ∧
    plookup (decayRun cb (101 * m + 100) t0
        (mkCyc id rel per life true cok 100 s rest)).properties "battery"
      = some (.num 0) ∧
    plookup (decayRun cb (101 * m + 101) t0
        (mkCyc id rel per life true cok 100 s rest)).properties "$ts"
      = some (.num (t0 + (101 * (m : ℚ) + 100) * (life / 100))) ∧
    (t0 + (101 * ((m : ℚ) + 1) + 100) * (life / 100))
        - (t0 + (101 * (m : ℚ) + 100) * (life / 100)) = life + life / 100 := by
  have h1 := decayRun_cyc_aux cb id rel per life cok hc (101 * m + 100) 100 100
    (by norm_num) le_rfl t0 s
  have h2 := decayRun_cyc_aux cb id rel per life cok hc (101 * m + 99) 100 100
    (by norm_num) le_rfl t0 s
  rw [show (101 * m + 100 + 1 : ℕ) = 101 * m + 101 from by omega] at h1
  rw [show (101 * m + 99 + 1 : ℕ) = 101 * m + 100 from by omega] at h2
  rw [show ((100 + 100 * (101 * m + 100 + 1)) % 101 : ℕ) = 100 from by omega] at h1
  rw [show ((100 + 100 * (101 * m + 99 + 1)) % 101 : ℕ) = 0 from by omega] at h2
  rw [h1, h2]
  refine ⟨by norm_num [mkCyc, cycProps, plookup], by norm_num [mkCyc, cycProps, plookup],
    ?_, by ring⟩
  show some (Value.num (t0 + ((101 * m + 100 : ℕ) : ℚ) * (life / 100)))
    = some (Value.num (t0 + (101 * (m : ℚ) + 100) * (life / 100)))
  congr 2
  push_cast
  ring

/-- C3 witness: the amended statement on a concrete autoreplace device
(`life = 100`, first tick at `t0 = 1`, cycle index `m = 1`). -/
theorem claim3_witness :
    cleanRest [] = true ∧
    (plookup (decayRun true (101 * 1 + 101) 1
        (mkCyc "d3" 1 2 100 true true 100 0 [])).properties "battery"
      = some (.num 100) ∧
    plookup (decayRun true (101 * 1 + 100) 1
        (mkCyc "d3" 1 2 100 true true 100 0 [])).properties "battery"
      = some (.num 0) ∧
    plookup (decayRun true (101 * 1 + 101) 1
        (mkCyc "d3" 1 2 100 true true 100 0 [])).properties "$ts"
      = some (.num (1 + (101 * ((1 : ℕ) : ℚ) + 100) * (100 / 100))) ∧
    ((1 : ℚ) + (101 * (((1 : ℕ) : ℚ) + 1) + 100) * (100 / 100))
        - (1 + (101 * ((1 : ℕ) : ℚ) + 100) * (100 / 100)) = 100 + 100 / 100) :=
  ⟨rfl, claim3_amended true "d3" 1 2 100 true [] rfl 1 0 1⟩

end Synth
